import Mathlib

/-!
Verification of the smart-attendance-tracker face-verification pipeline.

Shallow embedding of the core subsystem from
src/backend/src/lambda/attendance: the ingestion handler
(process_attendance.py), the comparison worker (compare_student_face.py),
the comparison-service adapter (shared/utils/rekognition_utils.py) and the
shared data-access helpers (shared/utils/attendance_utils.py,
utils/sns_utils.py).

External services (DynamoDB, S3, SQS, SNS, Rekognition) are modelled as
oracles in an environment record: each oracle gives the outcome of one
call, an Except value standing for a normal return or a raised exception.
Handlers additionally return the ordered list of side-effecting calls they
performed, so that statements about "no write happened" are about the
model, not about its absence.
-/

namespace SmartAttendance

/-- Python truthiness of an optional string value: None and the empty
string are falsy, every other string is truthy. -/
def truthy : Option String → Bool
  | none => false
  | some s => !(s == "")

/-- AttendanceStatus enum (shared/model/AttendanceModel.py). -/
inductive AttendanceStatus
  | processing
  | verified
  | failed
deriving DecidableEq, Repr

/-- The string value of an AttendanceStatus member. -/
def AttendanceStatus.value : AttendanceStatus → String
  | .processing => "processing"
  | .verified => "verified"
  | .failed => "failed"

/-- AttendanceModel (shared/model/AttendanceModel.py).  Dates and
timestamps are kept as their ISO strings, similarity scores as rationals
(the code only stores and copies them, never computes with them). -/
structure AttendanceRecord where
  attendance_id : String
  user_id : String
  attendance_date : String
  status : AttendanceStatus
  similarity_score : Option Rat
  face_s3_key : String
  tracking_id : String
  course_id : Option String
  schedule_id : Option String
  created_at : String
  verified_at : Option String
  error_message : Option String
deriving DecidableEq, Repr

/-- The fields of StudentModel (student/shared/model/StudentModel.py) that
the verification pipeline reads; the remaining profile fields are never
consulted by the core. -/
structure Student where
  user_id : String
  face_registered : Bool
  face_s3_key : Option String
deriving DecidableEq, Repr

/-- FaceComparisonResult (shared/utils/rekognition_utils.py). -/
structure FaceComparisonResult where
  success : Bool
  similarity_score : Option Rat
  error_message : Option String
  error_code : Option String
deriving DecidableEq, Repr

/-- One entry of the FaceMatches array of a Rekognition CompareFaces
response; the adapter reads only its Similarity value. -/
structure FaceMatch where
  similarity : Rat
deriving DecidableEq, Repr

/-- Outcome of one Rekognition compare_faces call, as seen by the adapter:
either a response (its FaceMatches list and the number of UnmatchedFaces),
or one of the exception classes the adapter distinguishes. -/
inductive RekOutcome
  | response (faceMatches : List FaceMatch) (unmatchedFaces : Nat)
  | invalidParameter
  | imageTooLarge
  | invalidS3Object
  | invalidImageFormat
  | throughputExceeded
  | otherError (msg : String)
deriving DecidableEq, Repr

/-- The f-string message built at rekognition_utils.py line 120 for a
multiple-match result, as a function of len(face_matches). -/
def multipleFacesMessage (n : Nat) : String :=
  s!"Multiple faces detected in image (found {n} matches). Please ensure only your face is visible and try again."

/-- compare_faces_with_rekognition (shared/utils/rekognition_utils.py,
lines 33-176), as a function of the call outcome.  The similarity
threshold is forwarded to the service inside the request and is not
consulted again by the adapter code itself.  An .error value models an
exception raised to the caller (the throttled and unclassified cases);
.ok models a returned FaceComparisonResult. -/
def compare_faces_with_rekognition (similarity_threshold : Rat)
    (outcome : RekOutcome) : Except String FaceComparisonResult :=
  match outcome with
  | .response faceMatches unmatchedFaces =>
    match faceMatches with
    | [] =>
      if unmatchedFaces ≠ 0 then
        .ok { success := false, similarity_score := none,
              error_message := some "Face verification failed: Similarity below threshold. Please ensure good lighting and face the camera directly.",
              error_code := some "SIMILARITY_BELOW_THRESHOLD" }
      else
        .ok { success := false, similarity_score := none,
              error_message := some "No face detected in image. Please ensure your face is clearly visible and try again.",
              error_code := some "NO_FACE_DETECTED" }
    | best_match :: _rest =>
      let similarity_score := best_match.similarity
      if faceMatches.length > 1 then
        .ok { success := false, similarity_score := some similarity_score,
              error_message := some (multipleFacesMessage faceMatches.length),
              error_code := some "MULTIPLE_FACES_DETECTED" }
      else
        .ok { success := true, similarity_score := some similarity_score,
              error_message := none, error_code := none }
  | .invalidParameter =>
    .ok { success := false, similarity_score := none,
          error_message := some "Invalid image format or parameters. Please upload a clear photo of your face.",
          error_code := some "INVALID_PARAMETER" }
  | .imageTooLarge =>
    .ok { success := false, similarity_score := none,
          error_message := some "Image size too large. Please upload a smaller image (max 15MB).",
          error_code := some "IMAGE_TOO_LARGE" }
  | .invalidS3Object =>
    .ok { success := false, similarity_score := none,
          error_message := some "Image not found or inaccessible. Please try uploading again.",
          error_code := some "IMAGE_NOT_FOUND" }
  | .invalidImageFormat =>
    .ok { success := false, similarity_score := none,
          error_message := some "Invalid image format. Please upload a JPEG or PNG image.",
          error_code := some "INVALID_IMAGE_FORMAT" }
  | .throughputExceeded =>
    .error "Face recognition service temporarily unavailable. Retrying..."
  | .otherError msg =>
    .error s!"Face comparison failed: {msg}"

/-- Spec-side definition (for refinement comparison only): the best, that
is highest, similarity among the listed face matches, as the spec phrase
"best (highest-similarity) match" reads. -/
def bestMatchSimilarity : List FaceMatch → Rat
  | [] => 0
  | [m] => m.similarity
  | m :: rest => max m.similarity (bestMatchSimilarity rest)

/-- A face-match list sorted the way AWS would have to list matches for
the first entry to be the best one: non-increasing similarity. -/
def sortedNonIncreasing : List FaceMatch → Prop
  | [] => True
  | [_] => True
  | a :: b :: rest => b.similarity ≤ a.similarity ∧ sortedNonIncreasing (b :: rest)

/-- The JSON payload of a ComparisonJob queue message: the six keys built
by send_to_comparison_queue (attendance_utils.py, lines 124-131), each
optional because the worker reads them with dict.get. -/
structure JobBody where
  tracking_id : Option String := none
  user_id : Option String := none
  face_s3_key : Option String := none
  attendance_date : Option String := none
  course_id : Option String := none
  schedule_id : Option String := none
deriving DecidableEq, Repr

/-- One SQS record as the worker receives it: its messageId and its body;
body = none models a body string whose json.loads raises. -/
structure SqsRecord where
  messageId : String
  body : Option JobBody
deriving DecidableEq, Repr

/-- The dict returned by process_single_message: every key any branch
puts in the result dict, optional when only some branches set it.
similarity_score is doubly optional: the key may be absent, or present
holding None. -/
structure ProcResult where
  success : Bool
  error : Option String := none
  message_id : String
  retryable : Option Bool := none
  tracking_id : Option String := none
  status : Option String := none
  similarity_score : Option (Option Rat) := none
  skipped : Option Bool := none
deriving DecidableEq, Repr

/-- The side-effecting external calls the worker can make, in the order
performed. -/
inductive WorkerEffect
  | attendanceLookup (user_id attendance_date : String)
  | studentLookup (user_id : String)
  | compareCall (source_key target_key : String)
  | recordUpdate (user_id attendance_date : String) (status : AttendanceStatus)
      (similarity_score : Option Rat) (error_message : Option String)
  | notifyPublish (status : String) (similarity_score : Option Rat)
      (error_message : Option String)
deriving DecidableEq, Repr

/-- Environment of one worker invocation: the configured values read from
module scope and one oracle per external call.  An .error value stands
for the call raising. -/
structure WorkerEnv where
  getAttendance : String → String → Except String (Option AttendanceRecord)
  getStudent : String → Except String (Option Student)
  rekognition : String → String → RekOutcome
  similarityThreshold : Rat
  updateAttendance : String → String → AttendanceStatus → Option Rat →
      Option String → Except String AttendanceRecord
  publishNotification : String → Option Rat → Option String → Except String Unit
  snsTopicArn : Option String

/-- process_single_message (compare_student_face.py, lines 28-211).
Returns the raised-or-returned outcome together with the trace of
external calls made.  The idempotency lookup models lines 77-101: a
lookup exception is swallowed and treated as attendance = None; a found
terminal record short-circuits with a skipped success result.  A publish
exception at lines 181-196 is swallowed. -/
def process_single_message (env : WorkerEnv) (message : SqsRecord) :
    Except String ProcResult × List WorkerEffect :=
  match message.body with
  | none => (.error "JSONDecodeError", [])
  | some body =>
    let tracking_id := body.tracking_id
    let user_id := body.user_id
    let attendance_face_s3_key := body.face_s3_key
    if !(truthy tracking_id && truthy user_id && truthy attendance_face_s3_key) then
      (.ok { success := false, error := some "Invalid message format",
             message_id := message.messageId, retryable := some false }, [])
    else
      let tid := tracking_id.getD ""
      let uid := user_id.getD ""
      let faceKey := attendance_face_s3_key.getD ""
      if !(truthy body.attendance_date) then
        (.ok { success := false, error := some "attendance_date missing from message",
               message_id := message.messageId, retryable := some false }, [])
      else
        let attendance_date := body.attendance_date.getD ""
        let tr0 := [WorkerEffect.attendanceLookup uid attendance_date]
        let attendance : Option AttendanceRecord :=
          match env.getAttendance uid attendance_date with
          | .ok a => a
          | .error _ => none
        let afterIdempotency : Unit → Except String ProcResult × List WorkerEffect :=
          fun _ =>
          let tr1 := tr0 ++ [WorkerEffect.studentLookup uid]
          match env.getStudent uid with
          | .error e => (.error e, tr1)
          | .ok none =>
            (.ok { success := false, error := some "Student profile not found",
                   message_id := message.messageId, retryable := some false }, tr1)
          | .ok (some student) =>
            if !student.face_registered || !(truthy student.face_s3_key) then
              (.ok { success := false, error := some "No registered face found",
                     message_id := message.messageId, retryable := some false }, tr1)
            else
              let registered_face_s3_key := student.face_s3_key.getD ""
              let tr2 := tr1 ++ [WorkerEffect.compareCall registered_face_s3_key faceKey]
              match compare_faces_with_rekognition env.similarityThreshold
                  (env.rekognition registered_face_s3_key faceKey) with
              | .error e => (.error e, tr2)
              | .ok comparison_result =>
                let attendance_status :=
                  if comparison_result.success then AttendanceStatus.verified
                  else AttendanceStatus.failed
                let similarity_score := comparison_result.similarity_score
                let error_message :=
                  if comparison_result.success then none
                  else comparison_result.error_message
                let tr3 := tr2 ++ [WorkerEffect.recordUpdate uid attendance_date
                    attendance_status similarity_score error_message]
                match env.updateAttendance uid attendance_date attendance_status
                    similarity_score error_message with
                | .error e => (.error e, tr3)
                | .ok _updated =>
                  let tr4 :=
                    match env.snsTopicArn with
                    | some _topic =>
                      match env.publishNotification attendance_status.value
                          similarity_score error_message with
                      | .ok _ =>
                        tr3 ++ [WorkerEffect.notifyPublish attendance_status.value
                            similarity_score error_message]
                      | .error _ =>
                        tr3 ++ [WorkerEffect.notifyPublish attendance_status.value
                            similarity_score error_message]
                    | none => tr3
                  (.ok { success := true, message_id := message.messageId,
                         tracking_id := some tid,
                         status := some attendance_status.value,
                         similarity_score := some similarity_score }, tr4)
        match attendance with
        | some rec =>
          if rec.status == .verified || rec.status == .failed then
            (.ok { success := true, message_id := message.messageId,
                   tracking_id := some tid, status := some rec.status.value,
                   similarity_score := some rec.similarity_score,
                   skipped := some true }, tr0)
          else afterIdempotency ()
        | none => afterIdempotency ()

/-- One iteration of the record loop in the worker handler
(compare_student_face.py, lines 232-263): a raised exception appends the
messageId to the failure list; a returned failure appends it only when
retryable (dict.get with default True) is true. -/
def handlerStep (env : WorkerEnv) (acc : List String) (record : SqsRecord) :
    List String :=
  match (process_single_message env record).1 with
  | .ok result =>
    if !result.success then
      if result.retryable.getD true then acc ++ [record.messageId]
      else acc
    else acc
  | .error _ => acc ++ [record.messageId]

/-- handler (compare_student_face.py, lines 214-273): fold the batch and
return the batchItemFailures identifiers. -/
def compare_student_face_handler (env : WorkerEnv) (records : List SqsRecord) :
    List String :=
  records.foldl (handlerStep env) []

/-- A record whose processing the worker counts as a retryable failure:
either process_single_message raised, or it returned success = false with
retryable defaulting to or set to true. -/
def retryableFailure (env : WorkerEnv) (record : SqsRecord) : Bool :=
  match (process_single_message env record).1 with
  | .error _ => true
  | .ok result => !result.success && result.retryable.getD true

/-! ## Ingestion handler (process_attendance.py) -/

/-- An API Gateway response as built by create_response
(utils/request_utils.py / utils/api_response.py): status code plus the
body dict, kept as an association list of its string-valued keys; the
constant CORS headers and JSON serialisation are not modelled. -/
structure Response where
  statusCode : Nat
  body : List (String × String)
deriving DecidableEq, Repr

/-- create_response (utils/request_utils.py, line 215). -/
def create_response (status_code : Nat) (body : List (String × String)) : Response :=
  { statusCode := status_code, body := body }

/-- Python str.upper as the handler applies it to httpMethod, modelled
characterwise (ASCII method names only ever reach it). -/
def upperString (s : String) : String :=
  String.mk (s.data.map Char.toUpper)

/-- The parsed JSON request body of an attendance submission; the handler
reads only faceImage (body.get with default None). -/
structure IngestRequestBody where
  faceImage : Option String := none
deriving DecidableEq, Repr

/-- The fields of the API Gateway event that process_attendance.handler
reads: httpMethod, body, isBase64Encoded, and
requestContext.authorizer.claims.sub. -/
structure IngestEvent where
  httpMethod : String
  body : Option String
  isBase64Encoded : Bool
  claimSub : Option String
deriving DecidableEq, Repr

/-- The side-effecting external calls the ingestion handler can make, in
the order performed. -/
inductive IngestEffect
  | studentLookup (user_id : String)
  | s3Upload (s3_key : String)
  | recordCreate (record : AttendanceRecord)
  | sqsSend (message_body : JobBody)
deriving DecidableEq, Repr

/-- Environment of one ingestion invocation: configuration read from
module scope (bucket, queue URL, API version), the fresh values produced
during the call (uuid4 tracking and attendance ids, datetime.now), and
one oracle per external call.  An .error value stands for the call
raising. -/
structure IngestEnv where
  s3BucketName : String
  queueUrl : String
  apiVersion : String
  decodeBodyBase64 : String → Except String String
  parseJson : String → Except String IngestRequestBody
  getStudent : String → Except String (Option Student)
  freshTrackingId : String
  freshAttendanceId : String
  now : String
  decodeImageBase64 : String → Except String Unit
  s3Put : String → Except String Unit
  ddbPutAttendance : AttendanceRecord → Except String Unit
  sqsSend : JobBody → Except String Unit

/-- upload_attendance_face_to_s3 (attendance_utils.py, lines 21-48): a
base64 decode failure raises ValueError (modelled as .error (.inl msg)),
an S3 put failure raises a plain Exception (.error (.inr msg)); the
s3Upload effect is recorded only when put_object is actually called. -/
def upload_attendance_face_to_s3 (env : IngestEnv) (user_id tracking_id : String)
    (image_base64 : String) :
    Except (String ⊕ String) String × List IngestEffect :=
  match env.decodeImageBase64 image_base64 with
  | .error e => (.error (.inl s!"Invalid base64 image data: {e}"), [])
  | .ok _ =>
    let s3_key := s!"faces/attendance/{user_id}/{tracking_id}.jpg"
    match env.s3Put s3_key with
    | .error e => (.error (.inr s!"Failed to upload image to S3: {e}"),
                   [IngestEffect.s3Upload s3_key])
    | .ok _ => (.ok s3_key, [IngestEffect.s3Upload s3_key])

/-- create_processing_attendance_record (attendance_utils.py, lines
64-95): builds the PROCESSING AttendanceModel keyed by (user_id, now) and
writes it; course_id and schedule_id keep their default None here because
the ingestion handler does not pass them. -/
def create_processing_attendance_record (env : IngestEnv)
    (user_id tracking_id face_s3_key : String) :
    Except String AttendanceRecord × List IngestEffect :=
  let attendance : AttendanceRecord :=
    { attendance_id := env.freshAttendanceId, user_id := user_id,
      attendance_date := env.now, status := .processing,
      similarity_score := none, face_s3_key := face_s3_key,
      tracking_id := tracking_id, course_id := none, schedule_id := none,
      created_at := env.now, verified_at := none, error_message := none }
  match env.ddbPutAttendance attendance with
  | .error e => (.error s!"Failed to create attendance record in DynamoDB: {e}",
                 [IngestEffect.recordCreate attendance])
  | .ok _ => (.ok attendance, [IngestEffect.recordCreate attendance])

/-- The argument list a call site supplies to send_to_comparison_queue,
field = none meaning the argument was not supplied. -/
structure SendToComparisonQueueArgs where
  queue_url : Option String := none
  user_id : Option String := none
  tracking_id : Option String := none
  face_s3_key : Option String := none
  attendance_date : Option String := none
  course_id : Option (Option String) := none
  schedule_id : Option (Option String) := none

/-- Python call semantics of send_to_comparison_queue (attendance_utils.py,
lines 98-139) applied to a supplied argument list.  The signature is
(queue_url, user_id, tracking_id, face_s3_key, attendance_date,
course_id=None, schedule_id=None): the first five parameters have no
default, so a call leaving any of them unsupplied raises TypeError before
the function body runs and before any SQS client call. -/
def send_to_comparison_queue_call (env : IngestEnv)
    (args : SendToComparisonQueueArgs) :
    Except String Unit × List IngestEffect :=
  match args.queue_url, args.user_id, args.tracking_id,
      args.face_s3_key, args.attendance_date with
  | some _queue_url, some user_id, some tracking_id,
      some face_s3_key, some attendance_date =>
    let message_body : JobBody :=
      { tracking_id := some tracking_id, user_id := some user_id,
        face_s3_key := some face_s3_key,
        attendance_date := some attendance_date,
        course_id := args.course_id.getD none,
        schedule_id := args.schedule_id.getD none }
    match env.sqsSend message_body with
    | .error e => (.error s!"Failed to send message to SQS: {e}",
                   [IngestEffect.sqsSend message_body])
    | .ok _ => (.ok (), [IngestEffect.sqsSend message_body])
  | _, _, _, _, _ =>
    (.error "TypeError: send_to_comparison_queue missing required positional argument", [])

/-- process_attendance.handler (process_attendance.py, lines 58-189),
including validate_request (lines 28-55).  The only operations inside the
outer try that can raise and are not wrapped in an inner try are the
base64 body decode (line 68) and the student lookup (line 106); both land
in the outer except, which returns the generic 500.  The enqueue call at
lines 162-167 supplies only four positional arguments. -/
def process_attendance_handler (env : IngestEnv) (event : IngestEvent) :
    Response × List IngestEffect :=
  let http_method := upperString event.httpMethod
  if http_method == "OPTIONS" then
    (create_response 200 [("message", "CORS preflight successful")], [])
  else if http_method != "POST" then
    (create_response 405 [("error", "Method Not Allowed"),
        ("message", s!"HTTP method {http_method} is not supported. Use POST.")], [])
  else if !(truthy event.body) then
    (create_response 400 [("error", "Bad Request"),
        ("message", "Request body is required")], [])
  else
    let raw := event.body.getD ""
    match (if event.isBase64Encoded then env.decodeBodyBase64 raw else .ok raw) with
    | .error _ =>
      (create_response 500 [("error", "Internal Server Error"),
          ("message", "An unexpected error occurred")], [])
    | .ok body_str =>
      match env.parseJson body_str with
      | .error _ =>
        (create_response 400 [("error", "Bad Request"),
            ("message", "Invalid JSON in request body")], [])
      | .ok body =>
        if !(truthy event.claimSub) then
          (create_response 401 [("error", "Unauthorized"),
              ("message", "User not authenticated")], [])
        else
          let user_id := event.claimSub.getD ""
          if !(truthy body.faceImage) then
            (create_response 400 [("error", "Bad Request"),
                ("message", "faceImage is required")], [])
          else
            let face_image := body.faceImage.getD ""
            if face_image.length > 13 * 1024 * 1024 then
              (create_response 413 [("error", "Payload Too Large"),
                  ("message", "Image size exceeds 13MB limit")], [])
            else
              let tr0 := [IngestEffect.studentLookup user_id]
              match env.getStudent user_id with
              | .error _ =>
                (create_response 500 [("error", "Internal Server Error"),
                    ("message", "An unexpected error occurred")], tr0)
              | .ok none =>
                (create_response 404 [("error", "Not Found"),
                    ("message", "Student profile not found")], tr0)
              | .ok (some student) =>
                if !student.face_registered then
                  (create_response 400 [("error", "Face Not Registered"),
                      ("message", "Please register your face first before marking attendance")], tr0)
                else
                  let tracking_id := env.freshTrackingId
                  let (uploadRes, trUp) :=
                    upload_attendance_face_to_s3 env user_id tracking_id face_image
                  let tr1 := tr0 ++ trUp
                  match uploadRes with
                  | .error (.inl m) =>
                    (create_response 400 [("error", "Invalid Image"), ("message", m)], tr1)
                  | .error (.inr _) =>
                    (create_response 500 [("error", "Internal Server Error"),
                        ("message", "Failed to upload face image")], tr1)
                  | .ok face_s3_key =>
                    let (createRes, trCr) :=
                      create_processing_attendance_record env user_id tracking_id face_s3_key
                    let tr2 := tr1 ++ trCr
                    match createRes with
                    | .error _ =>
                      (create_response 500 [("error", "Internal Server Error"),
                          ("message", "Failed to create attendance record")], tr2)
                    | .ok _attendance =>
                      let (sendRes, trSq) := send_to_comparison_queue_call env
                        { queue_url := some env.queueUrl, user_id := some user_id,
                          tracking_id := some tracking_id,
                          face_s3_key := some face_s3_key }
                      let tr3 := tr2 ++ trSq
                      match sendRes with
                      | .error _ =>
                        (create_response 500 [("error", "Internal Server Error"),
                            ("message", "Failed to queue attendance verification")], tr3)
                      | .ok _ =>
                        let api_version := env.apiVersion
                        (create_response 200 [("tracking_id", tracking_id),
                            ("status", "processing"),
                            ("sse_stream_url",
                              s!"/api/{api_version}/attendance/stream/{tracking_id}"),
                            ("message", "Attendance verification in progress")], tr3)

/-- Whether an ingestion effect is an SQS enqueue. -/
def IngestEffect.isEnqueue : IngestEffect → Bool
  | .sqsSend _ => true
  | _ => false

/-! ## Concrete fixtures used by witnesses -/

/-- A fully-permissive ingestion environment for concrete evaluations:
every oracle succeeds, the student profile exists with a registered
face. -/
def ingestEnvOk : IngestEnv :=
  { s3BucketName := "bucket", queueUrl := "queue-url", apiVersion := "v1",
    decodeBodyBase64 := fun s => .ok s,
    parseJson := fun _ => .ok { faceImage := some "aGVsbG8=" },
    getStudent := fun uid => .ok (some { user_id := uid,
                                         face_registered := true,
                                         face_s3_key := some "face_registrations/user-1.jpg" }),
    freshTrackingId := "tid-1", freshAttendanceId := "aid-1",
    now := "2026-01-01T09:00:00",
    decodeImageBase64 := fun _ => .ok (),
    s3Put := fun _ => .ok (),
    ddbPutAttendance := fun _ => .ok (),
    sqsSend := fun _ => .ok () }

/-- A well-formed authenticated POST submission event. -/
def postEvent : IngestEvent :=
  { httpMethod := "POST", body := some "\x7b\"faceImage\": \"aGVsbG8=\"\x7d",
    isBase64Encoded := false, claimSub := some "user-1" }

/-- A 13631489-character faceImage payload. -/
def oversizedImage : String :=
  String.mk (List.replicate 13631489 'a')

/-- The permissive ingestion environment whose request parse yields the
oversized payload. -/
def ingestEnvBigImage : IngestEnv :=
  { ingestEnvOk with parseJson := fun _ => Except.ok { faceImage := some oversizedImage } }

/-- A well-formed ComparisonJob payload. -/
def jobBodyOk : JobBody :=
  { tracking_id := some "tid-1", user_id := some "user-1",
    face_s3_key := some "faces/attendance/user-1/tid-1.jpg",
    attendance_date := some "2026-01-01T09:00:00",
    course_id := none, schedule_id := none }

/-- A well-formed SQS record carrying jobBodyOk. -/
def sqsRecordOk : SqsRecord :=
  { messageId := "mid-1", body := some jobBodyOk }

/-- A malformed SQS record: its payload has no truthy user_id. -/
def badRecord : SqsRecord :=
  { messageId := "mid-bad",
    body := some { jobBodyOk with user_id := none } }

/-- A student profile with a registered face. -/
def studentOk : Student :=
  { user_id := "user-1", face_registered := true,
    face_s3_key := some "face_registrations/user-1.jpg" }

/-- A terminal (verified) attendance record. -/
def verifiedRecord : AttendanceRecord :=
  { attendance_id := "aid-0", user_id := "user-1",
    attendance_date := "2026-01-01T09:00:00", status := .verified,
    similarity_score := some 97,
    face_s3_key := "faces/attendance/user-1/tid-0.jpg",
    tracking_id := "tid-0", course_id := none, schedule_id := none,
    created_at := "2026-01-01T08:59:00",
    verified_at := some "2026-01-01T09:00:30", error_message := none }

/-- A worker environment in which every oracle succeeds, no previous
record exists, and the comparison reports one match at similarity 97. -/
def workerEnvBase : WorkerEnv :=
  { getAttendance := fun _ _ => .ok none,
    getStudent := fun _ => .ok (some studentOk),
    rekognition := fun _ _ => .response [⟨97⟩] 0,
    similarityThreshold := 80,
    updateAttendance := fun _ _ _ _ _ => .ok verifiedRecord,
    publishNotification := fun _ _ _ => .ok (),
    snsTopicArn := some "topic-arn" }

/-- The all-success worker environment with a throttled comparison
service. -/
def workerEnvThrottled : WorkerEnv :=
  { workerEnvBase with rekognition := fun _ _ => .throughputExceeded }

/-- The all-success worker environment whose notification publish
raises. -/
def workerEnvPublishFails : WorkerEnv :=
  { workerEnvBase with publishNotification := fun _ _ _ => .error "SNS publish failed" }

/-! ## Theorems -/

/-- For a list of matches in non-increasing similarity order, the first
entry carries the highest similarity. -/
lemma bestMatchSimilarity_of_sorted (rest : List FaceMatch) (m : FaceMatch)
    (h : sortedNonIncreasing (m :: rest)) :
    bestMatchSimilarity (m :: rest) = m.similarity := by
  induction rest generalizing m with
  | nil => rfl
  | cons b rest2 ih =>
    obtain ⟨hle, hsorted⟩ := h
    have hb := ih b hsorted
    show max m.similarity (bestMatchSimilarity (b :: rest2)) = m.similarity
    rw [hb]
    exact max_eq_left hle

/-- C5: a comparison-service response with an empty FaceMatches list and
no unmatched faces yields failure with error_code NO_FACE_DETECTED; an
empty FaceMatches list with at least one unmatched face yields failure
with error_code SIMILARITY_BELOW_THRESHOLD; exactly one face match yields
success with similarity_score equal to that match's reported similarity
value. -/
theorem C5_adapter_response_taxonomy (similarity_threshold : Rat) :
    (compare_faces_with_rekognition similarity_threshold (.response [] 0)
      = .ok { success := false, similarity_score := none,
              error_message := some "No face detected in image. Please ensure your face is clearly visible and try again.",
              error_code := some "NO_FACE_DETECTED" })
    ∧ (∀ unmatched : Nat, unmatched ≠ 0 →
        compare_faces_with_rekognition similarity_threshold (.response [] unmatched)
          = .ok { success := false, similarity_score := none,
                  error_message := some "Face verification failed: Similarity below threshold. Please ensure good lighting and face the camera directly.",
                  error_code := some "SIMILARITY_BELOW_THRESHOLD" })
    ∧ (∀ (m : FaceMatch) (unmatched : Nat),
        compare_faces_with_rekognition similarity_threshold (.response [m] unmatched)
          = .ok { success := true, similarity_score := some m.similarity,
                  error_message := none, error_code := none }) := by
  refine ⟨rfl, ?_, ?_⟩
  · intro unmatched hu
    simp [compare_faces_with_rekognition, hu]
  · intro m unmatched
    simp [compare_faces_with_rekognition]

/-- Witness for C5 at a concrete response. -/
theorem C5_adapter_response_taxonomy_witness :
    compare_faces_with_rekognition 80 (.response [] 3)
      = .ok { success := false, similarity_score := none,
              error_message := some "Face verification failed: Similarity below threshold. Please ensure good lighting and face the camera directly.",
              error_code := some "SIMILARITY_BELOW_THRESHOLD" } :=
  (C5_adapter_response_taxonomy 80).2.1 3 (by decide)

/-- C6 fails as stated: on a response listing two matches above threshold
whose first entry is not the highest one, the adapter reports the FIRST
match's similarity (81), not the best (highest) match's similarity (95). -/
theorem C6_counterexample_first_not_best :
    compare_faces_with_rekognition 80 (.response [⟨81⟩, ⟨95⟩] 0)
      = .ok { success := false, similarity_score := some 81,
              error_message := some (multipleFacesMessage 2),
              error_code := some "MULTIPLE_FACES_DETECTED" }
    ∧ bestMatchSimilarity [⟨81⟩, ⟨95⟩] = 95
    ∧ (81 : Rat) ≠ 95 := by
  refine ⟨rfl, ?_, by norm_num⟩
  show max (81 : Rat) 95 = 95
  norm_num

/-- C6 (amended): on a response reporting two or more face matches above
threshold the adapter returns failure with error_code
MULTIPLE_FACES_DETECTED and similarity_score equal to the FIRST listed
match's similarity; that value equals the best (highest-similarity)
match's score exactly when the service lists matches in non-increasing
similarity order. -/
theorem C6_multiple_matches_amended (similarity_threshold : Rat)
    (unmatched : Nat) (m : FaceMatch) (rest : List FaceMatch) (h : rest ≠ []) :
    compare_faces_with_rekognition similarity_threshold
        (.response (m :: rest) unmatched)
      = .ok { success := false, similarity_score := some m.similarity,
              error_message := some (multipleFacesMessage (rest.length + 1)),
              error_code := some "MULTIPLE_FACES_DETECTED" }
    ∧ (sortedNonIncreasing (m :: rest) →
        m.similarity = bestMatchSimilarity (m :: rest)) := by
  constructor
  · have hlen : (m :: rest).length > 1 := by
      cases rest with
      | nil => exact absurd rfl h
      | cons b r => simp
    simp [compare_faces_with_rekognition, hlen, h]
  · intro hsorted
    exact (bestMatchSimilarity_of_sorted rest m hsorted).symm

/-- Witness for the amended C6 at a concrete two-match response. -/
theorem C6_multiple_matches_amended_witness :
    (compare_faces_with_rekognition 80 (.response [⟨90⟩, ⟨85⟩] 0)
      = .ok { success := false, similarity_score := some 90,
              error_message := some (multipleFacesMessage 2),
              error_code := some "MULTIPLE_FACES_DETECTED" })
    ∧ (90 : Rat) = bestMatchSimilarity [⟨90⟩, ⟨85⟩] :=
  ⟨(C6_multiple_matches_amended 80 0 ⟨90⟩ [⟨85⟩] (by decide)).1,
   (C6_multiple_matches_amended 80 0 ⟨90⟩ [⟨85⟩] (by decide)).2
     ⟨by norm_num, trivial⟩⟩

/-- C7: a submission whose faceImage payload exceeds 13*1024*1024
characters is answered with the 413 size-error response, and the
invocation performs no external call at all: in particular no image-store
write, no attendance-record write and no queue enqueue. -/
theorem C7_size_limit_rejected_before_effects (env : IngestEnv)
    (event : IngestEvent) (body_str : String) (body : IngestRequestBody)
    (img : String)
    (hm : upperString event.httpMethod = "POST")
    (hb : truthy event.body = true)
    (hdec : (if event.isBase64Encoded
        then env.decodeBodyBase64 (event.body.getD "")
        else Except.ok (event.body.getD "")) = .ok body_str)
    (hjson : env.parseJson body_str = .ok body)
    (hsub : truthy event.claimSub = true)
    (himg : body.faceImage = some img)
    (hsize : img.length > 13 * 1024 * 1024) :
    (process_attendance_handler env event).1
      = create_response 413 [("error", "Payload Too Large"),
          ("message", "Image size exceeds 13MB limit")]
    ∧ (process_attendance_handler env event).2 = [] := by
  have h1 : truthy (some img) = true := by
    have hne : img ≠ "" := by
      intro hempty
      rw [hempty] at hsize
      simp at hsize
    simp [truthy, hne]
  have h2 : 13631488 < img.length := by omega
  constructor <;>
  · unfold process_attendance_handler
    simp [hm, hb, hdec, hjson, hsub, himg, h1, h2]

/-- Witness for C7: a 13631489-character payload on an otherwise valid
event. -/
theorem C7_size_limit_rejected_before_effects_witness :
    (process_attendance_handler ingestEnvBigImage postEvent).1
      = create_response 413 [("error", "Payload Too Large"),
          ("message", "Image size exceeds 13MB limit")]
    ∧ (process_attendance_handler ingestEnvBigImage postEvent).2 = [] :=
  C7_size_limit_rejected_before_effects ingestEnvBigImage postEvent
    "\x7b\"faceImage\": \"aGVsbG8=\"\x7d" { faceImage := some oversizedImage }
    oversizedImage rfl rfl rfl rfl rfl rfl
    (by
      have h : oversizedImage.length = (List.replicate 13631489 'a').length := rfl
      rw [h, List.length_replicate]
      decide)

/-- C9: the ingestion handler is total over events and environment
outcomes: every branch, the exceptional ones included, returns a
structured response whose status code is one of 200, 400, 401, 404, 405,
413, 500. -/
theorem C9_handler_always_structured_response (env : IngestEnv)
    (event : IngestEvent) :
    (process_attendance_handler env event).1.statusCode ∈
      [200, 400, 401, 404, 405, 413, 500] := by
  simp only [process_attendance_handler]
  repeat' split
  all_goals simp [create_response]

/-- A student lookup is not an enqueue. -/
@[simp] lemma isEnqueue_studentLookup (u : String) :
    (IngestEffect.studentLookup u).isEnqueue = false := rfl

/-- An image upload is not an enqueue. -/
@[simp] lemma isEnqueue_s3Upload (k : String) :
    (IngestEffect.s3Upload k).isEnqueue = false := rfl

/-- A record creation is not an enqueue. -/
@[simp] lemma isEnqueue_recordCreate (r : AttendanceRecord) :
    (IngestEffect.recordCreate r).isEnqueue = false := rfl

/-- The image-upload helper never records an enqueue effect. -/
lemma upload_no_enqueue (env : IngestEnv) (u t i : String) :
    ∀ x ∈ (upload_attendance_face_to_s3 env u t i).2, x.isEnqueue = false := by
  unfold upload_attendance_face_to_s3
  cases env.decodeImageBase64 i with
  | error e => simp
  | ok a =>
    simp only []
    split
    · simp
    · simp

/-- The record-creation helper never records an enqueue effect. -/
lemma create_record_no_enqueue (env : IngestEnv) (u t k : String) :
    ∀ x ∈ (create_processing_attendance_record env u t k).2, x.isEnqueue = false := by
  unfold create_processing_attendance_record
  dsimp only
  split
  · simp
  · simp

/-- Bool form of upload_no_enqueue, phrased for rewriting. -/
lemma upload_all_no_enqueue (env : IngestEnv) (u t i : String) :
    ((upload_attendance_face_to_s3 env u t i).2.all (fun e => !e.isEnqueue)) = true := by
  rw [List.all_eq_true]
  intro x hx
  simp [upload_no_enqueue env u t i x hx]

/-- Bool form of create_record_no_enqueue, phrased for rewriting. -/
lemma create_record_all_no_enqueue (env : IngestEnv) (u t k : String) :
    ((create_processing_attendance_record env u t k).2.all (fun e => !e.isEnqueue)) = true := by
  rw [List.all_eq_true]
  intro x hx
  simp [create_record_no_enqueue env u t k x hx]

/-- A send_to_comparison_queue call that leaves attendance_date
unsupplied raises TypeError before reaching the queue client: its trace
is empty. -/
lemma send_call_no_date_trace (env : IngestEnv) (q u t f : Option String)
    (c s : Option (Option String)) :
    (send_to_comparison_queue_call env
      { queue_url := q, user_id := u, tracking_id := t, face_s3_key := f,
        course_id := c, schedule_id := s }).2 = [] := by
  unfold send_to_comparison_queue_call
  cases q <;> cases u <;> cases t <;> cases f <;> rfl

/-- C1 fails on the code: the enqueue call site supplies four arguments
to the five-required-parameter send_to_comparison_queue, so a fully valid
submission with every store and queue oracle succeeding is answered 500
(Failed to queue attendance verification) instead of 200, and in fact no
invocation of the handler ever performs an SQS enqueue effect. -/
theorem C1_valid_submission_enqueue_code_bug :
    ((process_attendance_handler ingestEnvOk postEvent).1
      = create_response 500 [("error", "Internal Server Error"),
          ("message", "Failed to queue attendance verification")])
    ∧ (∀ env event, ((process_attendance_handler env event).2.all
        (fun e => !e.isEnqueue)) = true) := by
  constructor
  · rfl
  · intro env event
    unfold process_attendance_handler
    dsimp only
    repeat' split
    all_goals simp only [send_call_no_date_trace, List.all_append, List.all_cons,
      List.all_nil, List.append_nil, isEnqueue_studentLookup, isEnqueue_s3Upload,
      isEnqueue_recordCreate, Bool.not_false, Bool.and_true, Bool.true_and,
      upload_all_no_enqueue, create_record_all_no_enqueue]

/-- C2: a ComparisonJob delivered for a (user_id, attendance_date) whose
AttendanceRecord is already terminal (VERIFIED or FAILED) is treated as
successfully processed: the worker returns a skipped success result, its
only external call is the idempotency lookup (so no comparison, no record
update, no notification publish), and the message is not reported for
redelivery. -/
theorem C2_terminal_record_skipped (env : WorkerEnv) (message : SqsRecord)
    (body : JobBody) (rec : AttendanceRecord)
    (hbody : message.body = some body)
    (ht : truthy body.tracking_id = true)
    (hu : truthy body.user_id = true)
    (hf : truthy body.face_s3_key = true)
    (hd : truthy body.attendance_date = true)
    (hatt : env.getAttendance (body.user_id.getD "") (body.attendance_date.getD "")
      = .ok (some rec))
    (hterm : rec.status = .verified ∨ rec.status = .failed) :
    (process_single_message env message).1
      = .ok { success := true, message_id := message.messageId,
              tracking_id := some (body.tracking_id.getD ""),
              status := some rec.status.value,
              similarity_score := some rec.similarity_score,
              skipped := some true }
    ∧ (process_single_message env message).2
      = [WorkerEffect.attendanceLookup (body.user_id.getD "")
          (body.attendance_date.getD "")]
    ∧ compare_student_face_handler env [message] = [] := by
  have hmain : process_single_message env message
      = (.ok { success := true, message_id := message.messageId,
               tracking_id := some (body.tracking_id.getD ""),
               status := some rec.status.value,
               similarity_score := some rec.similarity_score,
               skipped := some true },
         [WorkerEffect.attendanceLookup (body.user_id.getD "")
           (body.attendance_date.getD "")]) := by
    unfold process_single_message
    rw [hbody]
    dsimp only
    rcases hterm with h | h <;> simp [ht, hu, hf, hd, hatt, h]
  refine ⟨by rw [hmain], by rw [hmain], ?_⟩
  simp [compare_student_face_handler, handlerStep, hmain]

/-- Witness for C2: redelivery of a job whose record is already
verified. -/
theorem C2_terminal_record_skipped_witness :
    (process_single_message
        { workerEnvBase with getAttendance := fun _ _ => .ok (some verifiedRecord) }
        sqsRecordOk).1
      = .ok { success := true, message_id := "mid-1",
              tracking_id := some "tid-1",
              status := some AttendanceStatus.verified.value,
              similarity_score := some (some 97),
              skipped := some true } :=
  (C2_terminal_record_skipped
    { workerEnvBase with getAttendance := fun _ _ => .ok (some verifiedRecord) }
    sqsRecordOk jobBodyOk verifiedRecord rfl rfl rfl rfl rfl rfl
    (Or.inl rfl)).1

/-- C10: a ComparisonJob message carrying tracking_id, user_id and
face_s3_key but no truthy attendance_date is classified a non-retryable
failure: no external call is made (so no comparison and no record write)
and the message is not reported for redelivery. -/
theorem C10_missing_attendance_date_nonretryable (env : WorkerEnv)
    (message : SqsRecord) (body : JobBody)
    (hbody : message.body = some body)
    (ht : truthy body.tracking_id = true)
    (hu : truthy body.user_id = true)
    (hf : truthy body.face_s3_key = true)
    (hd : truthy body.attendance_date = false) :
    (process_single_message env message).1
      = .ok { success := false,
              error := some "attendance_date missing from message",
              message_id := message.messageId, retryable := some false }
    ∧ (process_single_message env message).2 = []
    ∧ compare_student_face_handler env [message] = [] := by
  have hmain : process_single_message env message
      = (.ok { success := false,
               error := some "attendance_date missing from message",
               message_id := message.messageId, retryable := some false }, []) := by
    unfold process_single_message
    rw [hbody]
    dsimp only
    simp [ht, hu, hf, hd]
  refine ⟨by rw [hmain], by rw [hmain], ?_⟩
  simp [compare_student_face_handler, handlerStep, hmain]

/-- Witness for C10: a job message whose attendance_date key is absent. -/
theorem C10_missing_attendance_date_nonretryable_witness :
    (process_single_message workerEnvBase
        { messageId := "mid-2",
          body := some { jobBodyOk with attendance_date := none } }).1
      = .ok { success := false,
              error := some "attendance_date missing from message",
              message_id := "mid-2", retryable := some false } :=
  (C10_missing_attendance_date_nonretryable workerEnvBase
    { messageId := "mid-2",
      body := some { jobBodyOk with attendance_date := none } }
    { jobBodyOk with attendance_date := none }
    rfl rfl rfl rfl rfl).1

/-- One handler iteration appends the messageId exactly for a retryable
failure. -/
lemma handlerStep_eq (env : WorkerEnv) (acc : List String) (record : SqsRecord) :
    handlerStep env acc record
      = if retryableFailure env record then acc ++ [record.messageId] else acc := by
  unfold handlerStep retryableFailure
  rcases h : (process_single_message env record).1 with e | res
  · simp
  · cases hs : res.success <;> cases hg : res.retryable.getD true <;> simp [hs, hg]

/-- The worker handler fold computes the retryable-failure ids, in
order. -/
lemma handler_foldl_characterization (env : WorkerEnv) (records : List SqsRecord) :
    ∀ acc : List String,
      records.foldl (handlerStep env) acc
        = acc ++ (records.filter (retryableFailure env)).map (fun r => r.messageId) := by
  induction records with
  | nil => intro acc; simp
  | cons r rs ih =>
    intro acc
    simp only [List.foldl_cons]
    rw [ih, handlerStep_eq]
    by_cases hr : retryableFailure env r = true
    · simp [List.filter_cons, hr]
    · simp only [Bool.not_eq_true] at hr
      simp [List.filter_cons, hr]

/-- C3: the returned batchItemFailures are exactly the identifiers of the
messages whose processing failed with retryable classification (a raised
exception, or a returned failure whose retryable flag defaults to or is
true); a message missing any of tracking_id, user_id or face_s3_key is a
non-retryable failure and (ids being distinct in the batch) its
identifier is absent from the returned list. -/
theorem C3_batch_failures_exactly_retryable (env : WorkerEnv)
    (records : List SqsRecord) :
    compare_student_face_handler env records
      = (records.filter (retryableFailure env)).map (fun r => r.messageId)
    ∧ (∀ record ∈ records, ∀ body, record.body = some body →
        (truthy body.tracking_id && truthy body.user_id
          && truthy body.face_s3_key) = false →
        (process_single_message env record).1
          = .ok { success := false, error := some "Invalid message format",
                  message_id := record.messageId, retryable := some false }
        ∧ retryableFailure env record = false
        ∧ ((records.map (fun r => r.messageId)).Nodup →
            record.messageId ∉ compare_student_face_handler env records)) := by
  have hchar : compare_student_face_handler env records
      = (records.filter (retryableFailure env)).map (fun r => r.messageId) := by
    unfold compare_student_face_handler
    simpa using handler_foldl_characterization env records []
  refine ⟨hchar, ?_⟩
  intro record hrec body hbody hmiss
  have hproc : (process_single_message env record).1
      = .ok { success := false, error := some "Invalid message format",
              message_id := record.messageId, retryable := some false } := by
    unfold process_single_message
    rw [hbody]
    dsimp only
    simp [hmiss]
  have hnofail : retryableFailure env record = false := by
    unfold retryableFailure
    rw [hproc]
    rfl
  refine ⟨hproc, hnofail, ?_⟩
  intro hnodup hmem
  rw [hchar] at hmem
  obtain ⟨r2, hr2mem, hr2id⟩ := List.mem_map.mp hmem
  have hr2rec : r2 ∈ records := List.mem_of_mem_filter hr2mem
  have hr2fail : retryableFailure env r2 = true := List.of_mem_filter hr2mem
  have heq : r2 = record :=
    List.inj_on_of_nodup_map hnodup hr2rec hrec hr2id
  rw [heq, hnofail] at hr2fail
  exact Bool.false_ne_true hr2fail

/-- Witness for C3 on the singleton batch containing a malformed
message. -/
theorem C3_batch_failures_exactly_retryable_witness :
    (process_single_message workerEnvBase badRecord).1
      = .ok { success := false, error := some "Invalid message format",
              message_id := "mid-bad", retryable := some false }
    ∧ retryableFailure workerEnvBase badRecord = false
    ∧ "mid-bad" ∉ compare_student_face_handler workerEnvBase [badRecord] := by
  have h := (C3_batch_failures_exactly_retryable workerEnvBase [badRecord]).2
    badRecord (by simp) { jobBodyOk with user_id := none } rfl (by decide)
  exact ⟨h.1, h.2.1, h.2.2 (by simp)⟩

/-- C4: on a well-formed job whose record is not yet terminal, with a
registered student profile, a throttled comparison-service call makes
process_single_message raise (so the queue redelivers): the worker
performs no record update, and the message identifier is the returned
batch failure for its batch. -/
theorem C4_throttled_comparison_redelivered (env : WorkerEnv)
    (message : SqsRecord) (body : JobBody) (student : Student)
    (hbody : message.body = some body)
    (ht : truthy body.tracking_id = true)
    (hu : truthy body.user_id = true)
    (hf : truthy body.face_s3_key = true)
    (hd : truthy body.attendance_date = true)
    (hatt : ∀ rec, env.getAttendance (body.user_id.getD "")
        (body.attendance_date.getD "") = .ok (some rec) →
        rec.status = .processing)
    (hstud : env.getStudent (body.user_id.getD "") = .ok (some student))
    (hreg : student.face_registered = true)
    (hkey : truthy student.face_s3_key = true)
    (hthrottle : env.rekognition (student.face_s3_key.getD "")
        (body.face_s3_key.getD "") = .throughputExceeded) :
    (process_single_message env message).1
      = .error "Face recognition service temporarily unavailable. Retrying..."
    ∧ (∀ x ∈ (process_single_message env message).2,
        ∀ u d st sc em, x ≠ WorkerEffect.recordUpdate u d st sc em)
    ∧ compare_student_face_handler env [message] = [message.messageId] := by
  have hmain : process_single_message env message
      = (.error "Face recognition service temporarily unavailable. Retrying...",
         [WorkerEffect.attendanceLookup (body.user_id.getD "")
            (body.attendance_date.getD ""),
          WorkerEffect.studentLookup (body.user_id.getD ""),
          WorkerEffect.compareCall (student.face_s3_key.getD "")
            (body.face_s3_key.getD "")]) := by
    unfold process_single_message
    rw [hbody]
    dsimp only
    rcases hga : env.getAttendance (body.user_id.getD "") (body.attendance_date.getD "")
        with e | a
    · simp [ht, hu, hf, hd, hga, hstud, hreg, hkey, hthrottle,
        compare_faces_with_rekognition]
    · cases a with
      | none =>
        simp [ht, hu, hf, hd, hga, hstud, hreg, hkey, hthrottle,
          compare_faces_with_rekognition]
      | some rec =>
        have hst := hatt rec hga
        simp [ht, hu, hf, hd, hga, hst, hstud, hreg, hkey, hthrottle,
          compare_faces_with_rekognition]
  refine ⟨by rw [hmain], ?_, ?_⟩
  · rw [hmain]
    intro x hx
    simp only [List.mem_cons, List.not_mem_nil, or_false] at hx
    rcases hx with h | h | h <;> subst h <;> intro u d st sc em <;> simp
  · simp [compare_student_face_handler, handlerStep, hmain]

/-- Witness for C4: a throttled call on a well-formed job. -/
theorem C4_throttled_comparison_redelivered_witness :
    (process_single_message workerEnvThrottled sqsRecordOk).1
      = .error "Face recognition service temporarily unavailable. Retrying..."
    ∧ compare_student_face_handler workerEnvThrottled [sqsRecordOk] = ["mid-1"] := by
  have h := C4_throttled_comparison_redelivered workerEnvThrottled
    sqsRecordOk jobBodyOk studentOk rfl rfl rfl rfl rfl
    (by intro rec hrec; simp [workerEnvThrottled, workerEnvBase] at hrec)
    rfl rfl rfl rfl
  exact ⟨h.1, h.2.2⟩

/-- C8: on a job that reaches the notification step with its terminal
update persisted, a failing notification publish does not fail the job:
the worker still returns a success result and the batch reports no
failure for the message. -/
theorem C8_publish_failure_not_job_failure (env : WorkerEnv)
    (message : SqsRecord) (body : JobBody) (student : Student)
    (cr : FaceComparisonResult) (updated : AttendanceRecord)
    (topic pubErr : String)
    (hbody : message.body = some body)
    (ht : truthy body.tracking_id = true)
    (hu : truthy body.user_id = true)
    (hf : truthy body.face_s3_key = true)
    (hd : truthy body.attendance_date = true)
    (hatt : ∀ rec, env.getAttendance (body.user_id.getD "")
        (body.attendance_date.getD "") = .ok (some rec) →
        rec.status = .processing)
    (hstud : env.getStudent (body.user_id.getD "") = .ok (some student))
    (hreg : student.face_registered = true)
    (hkey : truthy student.face_s3_key = true)
    (hcmp : compare_faces_with_rekognition env.similarityThreshold
        (env.rekognition (student.face_s3_key.getD "")
          (body.face_s3_key.getD "")) = .ok cr)
    (hupd : env.updateAttendance (body.user_id.getD "")
        (body.attendance_date.getD "")
        (if cr.success then AttendanceStatus.verified else AttendanceStatus.failed)
        cr.similarity_score
        (if cr.success then none else cr.error_message) = .ok updated)
    (htopic : env.snsTopicArn = some topic)
    (hpub : env.publishNotification
        (if cr.success then AttendanceStatus.verified else AttendanceStatus.failed).value
        cr.similarity_score
        (if cr.success then none else cr.error_message) = .error pubErr) :
    (process_single_message env message).1
      = .ok { success := true, message_id := message.messageId,
              tracking_id := some (body.tracking_id.getD ""),
              status := some (if cr.success then AttendanceStatus.verified
                else AttendanceStatus.failed).value,
              similarity_score := some cr.similarity_score }
    ∧ compare_student_face_handler env [message] = [] := by
  have hmain : (process_single_message env message).1
      = .ok { success := true, message_id := message.messageId,
              tracking_id := some (body.tracking_id.getD ""),
              status := some (if cr.success then AttendanceStatus.verified
                else AttendanceStatus.failed).value,
              similarity_score := some cr.similarity_score } := by
    unfold process_single_message
    rw [hbody]
    dsimp only
    rcases hga : env.getAttendance (body.user_id.getD "") (body.attendance_date.getD "")
        with e | a
    · simp [ht, hu, hf, hd, hga, hstud, hreg, hkey, hcmp, hupd, htopic, hpub]
    · cases a with
      | none =>
        simp [ht, hu, hf, hd, hga, hstud, hreg, hkey, hcmp, hupd, htopic, hpub]
      | some rec =>
        have hst := hatt rec hga
        simp [ht, hu, hf, hd, hga, hst, hstud, hreg, hkey, hcmp, hupd, htopic, hpub]
  refine ⟨hmain, ?_⟩
  simp [compare_student_face_handler, handlerStep, hmain]

/-- Witness for C8: a verified comparison whose notification publish
fails. -/
theorem C8_publish_failure_not_job_failure_witness :
    (process_single_message workerEnvPublishFails sqsRecordOk).1
      = .ok { success := true, message_id := "mid-1",
              tracking_id := some "tid-1",
              status := some AttendanceStatus.verified.value,
              similarity_score := some (some 97) }
    ∧ compare_student_face_handler workerEnvPublishFails [sqsRecordOk] = [] := by
  have h := C8_publish_failure_not_job_failure workerEnvPublishFails
    sqsRecordOk jobBodyOk studentOk
    { success := true, similarity_score := some 97,
      error_message := none, error_code := none }
    verifiedRecord "topic-arn" "SNS publish failed"
    rfl rfl rfl rfl rfl
    (by intro rec hrec; simp [workerEnvPublishFails, workerEnvBase] at hrec)
    rfl rfl rfl rfl rfl rfl rfl
  exact h

end SmartAttendance
